import Mathlib

/-!
Verification model of the Accessible-TabPanel widget
(source: src/src/TabPanel/index.js).

The file shallowly embeds the five React components — TabPanel, TabList,
Tab, Panels, Panel — as pure Lean functions over explicit data:

* `activeTab` state is an `Int` (a JavaScript integer-valued number);
* a keyboard event is a record carrying its `key` string;
* `setActiveTab` calls and `e.preventDefault()` are reflected in the
  returned `KeyResult`;
* the read `children[0].props.children.length` at the top of
  `handleKeyPress` is modelled by `tabListLength?`, whose `none` case
  stands for the TypeError thrown in JavaScript when the child
  collections are empty or missing (indexing past the end yields
  `undefined`, and reading `.props` / `.length` off `undefined` throws);
* rendering is modelled by functions from props to records of the
  rendered attributes (aria-selected, tabIndex, ref registration, the
  index each Tab's click callback is bound to, which Panel child is
  emitted).
-/

namespace AccessibleTabPanel

/-- Configuration of one Tab child: its two ARIA identifiers and its label
content (the props of the Tab component in the source). -/
structure TabSpec where
  ariaControls : String
  ariaLabelledbyId : String
  label : String
deriving DecidableEq, Repr

/-- Configuration of one Panel child: its two ARIA identifiers and its
content (the props of the Panel component in the source). -/
structure PanelSpec where
  controlsId : String
  ariaLabelledby : String
  content : String
deriving DecidableEq, Repr

/-- A keyboard event as `handleKeyPress` consumes it: only `e.key` is read. -/
structure KeyboardEvent where
  key : String
deriving DecidableEq, Repr

/-- Outcome of one `handleKeyPress` call: the value `activeTab` holds after
the call (unchanged when no `setActiveTab` ran) and whether
`e.preventDefault()` was called. -/
structure KeyResult where
  activeTab : Int
  defaultPrevented : Bool
deriving DecidableEq, Repr

/-- Models `children[0].props.children.length`: the number of Tab children
of the TabList sitting in TabPanel's first child slot.  `none` models the
TypeError JavaScript throws when TabPanel has no children (`children[0]`
is `undefined`, so `.props` throws) or the TabList has none
(`props.children` is `undefined`, so `.length` throws); both cases are an
empty tab collection here. -/
def tabListLength? (tabs : List TabSpec) : Option Nat :=
  if tabs.isEmpty then none else some tabs.length

/-- The key dispatch of `handleKeyPress` after `tabListLength` has been
read: the if/else-if chain on `e.key` from the source, with each branch's
`e.preventDefault()` and `setActiveTab` call recorded. -/
def keyTransition (tabListLength : Nat) (activeTab : Int) (key : String) : KeyResult :=
  if key = "ArrowLeft" then
    { activeTab := if activeTab ≠ 0 then activeTab - 1 else (tabListLength : Int) - 1
      defaultPrevented := true }
  else if key = "ArrowRight" then
    { activeTab := if activeTab ≠ (tabListLength : Int) - 1 then activeTab + 1 else 0
      defaultPrevented := true }
  else if key = "Home" then
    { activeTab := 0, defaultPrevented := true }
  else if key = "End" then
    { activeTab := (tabListLength : Int) - 1, defaultPrevented := true }
  else
    { activeTab := activeTab, defaultPrevented := false }

/-- TabPanel's `handleKeyPress(e)`: first reads
`children[0].props.children.length` (which fails on an empty
configuration, giving `none`), then dispatches on `e.key`. -/
def handleKeyPress (tabs : List TabSpec) (activeTab : Int) (e : KeyboardEvent) :
    Option KeyResult :=
  match tabListLength? tabs with
  | none => none
  | some len => some (keyTransition len activeTab e.key)

/-- TabPanel's `onSelectTab` prop: `(idx) => setActiveTab(idx)`. -/
def onSelectTab (idx : Int) : Int := idx

/-- Initial state of TabPanel: `useState(0)`. -/
def initialActiveTab : Int := 0

/-- The button rendered by the Tab component: its ARIA attributes,
`tabIndex={active ? 0 : -1}`, the css class flag from
`classNames('tab', \x7b 'activeTab': active \x7d)`, and whether the button
registered itself on the shared focus handle via
`ref={active ? tabFocus : null}`. -/
structure RenderedTab where
  ariaSelected : Bool
  ariaControls : String
  id : String
  tabIndex : Int
  claimsFocus : Bool
  cssActiveTab : Bool
deriving DecidableEq, Repr

/-- The Tab component: a pure function of its spec and the injected
`active` prop. -/
def Tab (t : TabSpec) (active : Bool) : RenderedTab :=
  { ariaSelected := active
    ariaControls := t.ariaControls
    id := t.ariaLabelledbyId
    tabIndex := if active then 0 else -1
    claimsFocus := active
    cssActiveTab := active }

/-- One entry of TabList's rendered output: the `active` prop TabList
injected (`index === activeTab`), the index its `onSelectTab` callback was
bound to (`onSelectTab: () => onSelectTab(index)`), and the button the Tab
component rendered from those props. -/
structure TabItem where
  active : Bool
  onSelectIndex : Nat
  button : RenderedTab
deriving DecidableEq, Repr

/-- The props TabList injects into the child at position `index`, followed
by that Tab's render. -/
def mkTabItem (activeTab : Int) (index : Nat) (t : TabSpec) : TabItem :=
  { active := decide ((index : Int) = activeTab)
    onSelectIndex := index
    button := Tab t (decide ((index : Int) = activeTab)) }

/-- The `React.Children.map` loop inside TabList, carrying the running
child index. -/
def tabListGo (activeTab : Int) (index : Nat) : List TabSpec → List TabItem
  | [] => []
  | t :: ts => mkTabItem activeTab index t :: tabListGo activeTab (index + 1) ts

/-- The TabList component: clones each Tab child with
`active = (index === activeTab)` and `onSelectTab` bound to that child's
own index, indices starting at 0. -/
def TabList (tabs : List TabSpec) (activeTab : Int) : List TabItem :=
  tabListGo activeTab 0 tabs

/-- Clicking the rendered tab at position `i`: the button's `onClick` runs
its bound callback `() => onSelectTab(i)`, and TabPanel's `onSelectTab`
sets `activeTab` to that index.  `none` when no tab is rendered at `i`
(no such click can occur). -/
def clickTab? (tabs : List TabSpec) (activeTab : Int) (i : Nat) : Option Int :=
  ((TabList tabs activeTab)[i]?).map fun it => onSelectTab (it.onSelectIndex : Int)

/-- The child index whose button holds the shared focus handle after a
render: the tab that passed `ref={tabFocus}` (exactly the one rendered
with `active = true`; the others pass `null`).  `none` when no rendered
tab claimed the handle. -/
def focusTarget? (tabs : List TabSpec) (activeTab : Int) : Option Nat :=
  ((TabList tabs activeTab).find? fun it => it.button.claimsFocus).map
    (fun it => it.onSelectIndex)

/-- The tab focused by TabPanel's post-render effect.  The source's
`useEffect(() => \x7b tabFocus.current.focus(); \x7d)` has no dependency
list, so it runs after every render, the mount included, and focuses
whatever node the handle then references. -/
def afterRenderFocus? (tabs : List TabSpec) (activeTab : Int) : Option Nat :=
  focusTarget? tabs activeTab

/-- The Panels component: `children[activeTab]`.  A negative or too-large
index reads `undefined` in JavaScript, so nothing is rendered (`none`);
there is no wraparound and no range check in the source. -/
def Panels (panels : List PanelSpec) (activeTab : Int) : Option PanelSpec :=
  if 0 ≤ activeTab then panels[activeTab.toNat]? else none

/-- The container rendered by the Panel component. -/
structure RenderedPanel where
  id : String
  ariaLabelledby : String
  tabIndex : Int
  content : String
deriving DecidableEq, Repr

/-- The Panel component: a pure function of its props. -/
def Panel (p : PanelSpec) : RenderedPanel :=
  { id := p.controlsId
    ariaLabelledby := p.ariaLabelledby
    tabIndex := 0
    content := p.content }

/-- A user interaction that mutates TabPanel's state: a key-down handled
by `handleKeyPress`, or a click on the rendered tab at a given position. -/
inductive Event where
  | keyDown (e : KeyboardEvent)
  | click (i : Nat)
deriving DecidableEq, Repr

/-- One state transition of TabPanel: the value `activeTab` holds after the
event.  `none` when the event's handler fails (key-down on an empty
configuration) or targets a tab that is not rendered. -/
def step (tabs : List TabSpec) (activeTab : Int) : Event → Option Int
  | Event.keyDown e => (handleKeyPress tabs activeTab e).map KeyResult.activeTab
  | Event.click i => clickTab? tabs activeTab i

/-! Sample configuration, taken from the demo application (three coffee
tabs), used to instantiate the hypothesis-bearing theorems. -/

/-- The drip-coffee tab of the demo application. -/
def sampleTab1 : TabSpec :=
  { ariaControls := "dripCoffeeTab", ariaLabelledbyId := "drip coffee", label := "Drip Coffee" }

/-- The latte tab of the demo application. -/
def sampleTab2 : TabSpec :=
  { ariaControls := "latteTab", ariaLabelledbyId := "latte", label := "Latte" }

/-- The espresso tab of the demo application. -/
def sampleTab3 : TabSpec :=
  { ariaControls := "espressoTab", ariaLabelledbyId := "espresso", label := "Espresso" }

/-- The demo application's TabList children. -/
def sampleTabs : List TabSpec := [sampleTab1, sampleTab2, sampleTab3]

/-- The demo application's Panels children. -/
def samplePanels : List PanelSpec :=
  [{ controlsId := "dripCoffeeTab", ariaLabelledby := "drip coffee",
     content := "This is the drip coffee panel" },
   { controlsId := "latteTab", ariaLabelledby := "latte",
     content := "This is the latte panel" },
   { controlsId := "espressoTab", ariaLabelledby := "espresso",
     content := "This is the espresso panel" }]

/-! Helper lemmas about the TabList render loop. -/

/-- On a nonempty tab collection the length read succeeds with the list
length. -/
theorem tabListLength?_of_ne_nil (tabs : List TabSpec) (h : tabs ≠ []) :
    tabListLength? tabs = some tabs.length := by
  cases tabs with
  | nil => exact absurd rfl h
  | cons t ts => rfl

/-- Element lookup in the render loop: position `i` of the loop started at
`k` renders child `i` with index `k + i`. -/
theorem tabListGo_getElem? (a : Int) :
    ∀ (ts : List TabSpec) (k i : Nat),
      (tabListGo a k ts)[i]? = (ts[i]?).map (mkTabItem a (k + i)) := by
  intro ts
  induction ts with
  | nil => intro k i; simp [tabListGo]
  | cons t ts ih =>
    intro k i
    cases i with
    | zero => simp [tabListGo]
    | succ j =>
      simp only [tabListGo, List.getElem?_cons_succ]
      rw [ih (k + 1) j]
      have h : k + 1 + j = k + (j + 1) := by omega
      rw [h]

/-- The render loop preserves the number of children. -/
theorem tabListGo_length (a : Int) :
    ∀ (ts : List TabSpec) (k : Nat), (tabListGo a k ts).length = ts.length := by
  intro ts
  induction ts with
  | nil => intro k; rfl
  | cons t ts ih => intro k; simp [tabListGo, ih]

/-- Element lookup in TabList's rendered output. -/
theorem TabList_getElem? (tabs : List TabSpec) (a : Int) (i : Nat) :
    (TabList tabs a)[i]? = (tabs[i]?).map (mkTabItem a i) := by
  have h := tabListGo_getElem? a tabs 0 i
  simpa [TabList] using h

/-- TabList renders one item per child. -/
theorem TabList_length (tabs : List TabSpec) (a : Int) :
    (TabList tabs a).length = tabs.length :=
  tabListGo_length a tabs 0

/-- Counting the items the loop rendered with `active = true`: one when
the active index falls inside the rendered index window, zero otherwise. -/
theorem tabListGo_countP_active (a : Int) :
    ∀ (ts : List TabSpec) (k : Nat),
      (tabListGo a k ts).countP (fun it => it.active) =
        if (k : Int) ≤ a ∧ a < (k : Int) + ts.length then 1 else 0 := by
  intro ts
  induction ts with
  | nil =>
    intro k
    simp only [tabListGo, List.countP_nil, List.length_nil]
    split
    · omega
    · rfl
  | cons t ts ih =>
    intro k
    simp only [tabListGo, List.countP_cons, ih (k + 1), mkTabItem, List.length_cons,
      decide_eq_true_eq]
    push_cast
    split_ifs <;> omega

/-- Counting the rendered buttons with `tabIndex = 0`: same count as the
active items, since `tabIndex` is 0 exactly on the active button. -/
theorem tabListGo_countP_tabIndex (a : Int) :
    ∀ (ts : List TabSpec) (k : Nat),
      (tabListGo a k ts).countP (fun it => decide (it.button.tabIndex = 0)) =
        (tabListGo a k ts).countP (fun it => it.active) := by
  intro ts
  induction ts with
  | nil => intro k; rfl
  | cons t ts ih =>
    intro k
    simp only [tabListGo, List.countP_cons, ih (k + 1), mkTabItem, Tab]
    by_cases hk : (k : Int) = a
    · simp [hk]
    · simp [hk]

/-- The first rendered item claiming the focus handle is the one at the
active index, whenever that index falls inside the rendered window. -/
theorem tabListGo_find?_claimsFocus (a : Int) :
    ∀ (ts : List TabSpec) (k : Nat),
      (k : Int) ≤ a → a < (k : Int) + ts.length →
      ((tabListGo a k ts).find? (fun it => it.button.claimsFocus)).map
          (fun it => it.onSelectIndex) = some a.toNat := by
  intro ts
  induction ts with
  | nil =>
    intro k hk hlt
    simp only [List.length_nil] at hlt
    omega
  | cons t ts ih =>
    intro k hk hlt
    rw [tabListGo, List.find?_cons]
    by_cases hka : (k : Int) = a
    · subst hka
      simp [mkTabItem, Tab]
    · have hd : (mkTabItem a k t).button.claimsFocus = false := by
        simp [mkTabItem, Tab, hka]
      simp only [hd]
      refine ih (k + 1) (by omega) ?_
      simp only [List.length_cons] at hlt
      push_cast at hlt ⊢
      omega

/-- Whatever the key, the dispatch keeps `activeTab` inside the valid
range when it started there and at least one tab exists. -/
theorem keyTransition_activeTab_bounds (len : Nat) (a : Int) (key : String)
    (h1 : 1 ≤ len) (h0 : 0 ≤ a) (hlt : a < (len : Int)) :
    0 ≤ (keyTransition len a key).activeTab ∧
      (keyTransition len a key).activeTab < (len : Int) := by
  unfold keyTransition
  split_ifs <;> simp <;> omega

/-- A nonempty tab list always lets `handleKeyPress` reach the dispatch. -/
theorem handleKeyPress_of_ne_nil (tabs : List TabSpec) (a : Int) (e : KeyboardEvent)
    (hne : tabs ≠ []) :
    handleKeyPress tabs a e = some (keyTransition tabs.length a e.key) := by
  simp [handleKeyPress, tabListLength?_of_ne_nil tabs hne]

/-! The claims. -/

/-- C1: for every tab count N ≥ 2 and every ActiveIndex with
0 ≤ ActiveIndex < N, ArrowRight sets ActiveIndex + 1 when
ActiveIndex < N - 1 and wraps to 0 when ActiveIndex = N - 1, and
ArrowLeft sets ActiveIndex - 1 when ActiveIndex > 0 and wraps to N - 1
when ActiveIndex = 0. -/
theorem arrow_keys_wraparound (tabs : List TabSpec) (N : Nat) (a : Int)
    (hN : tabs.length = N) (h2 : 2 ≤ N) (h0 : 0 ≤ a) (hlt : a < (N : Int)) :
    ((handleKeyPress tabs a ⟨"ArrowRight"⟩).map KeyResult.activeTab
        = some (if a < (N : Int) - 1 then a + 1 else 0))
  ∧ ((handleKeyPress tabs a ⟨"ArrowLeft"⟩).map KeyResult.activeTab
        = some (if 0 < a then a - 1 else (N : Int) - 1)) := by
  have hne : tabs ≠ [] := by intro h; rw [h] at hN; simp at hN; omega
  constructor <;>
  · rw [handleKeyPress_of_ne_nil tabs a _ hne, hN]
    simp [keyTransition]
    split_ifs <;> omega

/-- Witness for C1: the three-tab demo configuration at ActiveIndex 2
(the last index). -/
theorem arrow_keys_wraparound_witness :
    ((handleKeyPress sampleTabs 2 ⟨"ArrowRight"⟩).map KeyResult.activeTab
        = some (if (2 : Int) < (3 : Int) - 1 then 2 + 1 else 0))
  ∧ ((handleKeyPress sampleTabs 2 ⟨"ArrowLeft"⟩).map KeyResult.activeTab
        = some (if (0 : Int) < 2 then 2 - 1 else (3 : Int) - 1)) :=
  arrow_keys_wraparound sampleTabs 3 2 rfl (by decide) (by decide) (by decide)

/-- C2: for every tab count N ≥ 1 and whatever `activeTab` currently
holds, Home sets ActiveIndex to 0 and End sets it to N - 1. -/
theorem home_end_keys (tabs : List TabSpec) (N : Nat) (a : Int)
    (hN : tabs.length = N) (h1 : 1 ≤ N) :
    ((handleKeyPress tabs a ⟨"Home"⟩).map KeyResult.activeTab = some 0)
  ∧ ((handleKeyPress tabs a ⟨"End"⟩).map KeyResult.activeTab = some ((N : Int) - 1)) := by
  have hne : tabs ≠ [] := by intro h; rw [h] at hN; simp at hN; omega
  constructor <;>
  · rw [handleKeyPress_of_ne_nil tabs a _ hne, hN]
    simp [keyTransition]

/-- Witness for C2: the three-tab demo configuration at ActiveIndex 1. -/
theorem home_end_keys_witness :
    ((handleKeyPress sampleTabs 1 ⟨"Home"⟩).map KeyResult.activeTab = some 0)
  ∧ ((handleKeyPress sampleTabs 1 ⟨"End"⟩).map KeyResult.activeTab
        = some ((3 : Int) - 1)) :=
  home_end_keys sampleTabs 3 1 rfl (by decide)

/-- C3: with a nonempty tab collection, a key other than ArrowLeft,
ArrowRight, Home, End leaves `activeTab` unchanged and never calls
`preventDefault`, while each of those four keys does call it. -/
theorem other_keys_pass_through (tabs : List TabSpec) (a : Int) (e : KeyboardEvent)
    (hne : tabs ≠ []) :
    (e.key ≠ "ArrowLeft" → e.key ≠ "ArrowRight" → e.key ≠ "Home" → e.key ≠ "End" →
        handleKeyPress tabs a e = some { activeTab := a, defaultPrevented := false })
  ∧ ((e.key = "ArrowLeft" ∨ e.key = "ArrowRight" ∨ e.key = "Home" ∨ e.key = "End") →
        (handleKeyPress tabs a e).map KeyResult.defaultPrevented = some true) := by
  constructor
  · intro h1 h2 h3 h4
    rw [handleKeyPress_of_ne_nil tabs a e hne]
    simp [keyTransition, h1, h2, h3, h4]
  · intro h
    rw [handleKeyPress_of_ne_nil tabs a e hne]
    rcases h with h | h | h | h <;> simp [keyTransition, h]

/-- Witness for C3: the Escape key on the demo configuration. -/
theorem other_keys_pass_through_witness :
    handleKeyPress sampleTabs 0 ⟨"Escape"⟩
      = some { activeTab := 0, defaultPrevented := false } :=
  (other_keys_pass_through sampleTabs 0 ⟨"Escape"⟩ (by decide)).1
    (by decide) (by decide) (by decide) (by decide)

/-- C4: `activeTab` starts at 0 (`useState(0)`), and with N ≥ 1 tabs every
transition that succeeds — any handled or unhandled key, or a click on a
rendered tab — keeps it inside `[0, N)` when it started there. -/
theorem active_index_invariant (tabs : List TabSpec) (N : Nat) (a a' : Int) (ev : Event)
    (hN : tabs.length = N) (h1 : 1 ≤ N) (h0 : 0 ≤ a) (hlt : a < (N : Int))
    (hstep : step tabs a ev = some a') :
    initialActiveTab = 0 ∧ (0 ≤ a' ∧ a' < (N : Int)) := by
  refine ⟨rfl, ?_⟩
  have hne : tabs ≠ [] := by intro h; rw [h] at hN; simp at hN; omega
  cases ev with
  | keyDown e =>
    simp only [step] at hstep
    rw [handleKeyPress_of_ne_nil tabs a e hne, hN] at hstep
    simp only [Option.map_some', Option.some.injEq] at hstep
    have hb := keyTransition_activeTab_bounds N a e.key h1 h0 hlt
    omega
  | click i =>
    simp only [step, clickTab?, TabList_getElem?] at hstep
    cases hti : tabs[i]? with
    | none => rw [hti] at hstep; simp at hstep
    | some t =>
      have hi : i < tabs.length := by
        by_contra hno
        rw [List.getElem?_eq_none (by omega)] at hti
        exact Option.noConfusion hti
      rw [hti] at hstep
      simp [mkTabItem, onSelectTab] at hstep
      omega

/-- Witness for C4: ArrowRight from the last index of the demo
configuration lands back at 0, inside the range. -/
theorem active_index_invariant_witness :
    initialActiveTab = 0 ∧ ((0 : Int) ≤ 0 ∧ (0 : Int) < ((3 : Nat) : Int)) :=
  active_index_invariant sampleTabs 3 2 0 (Event.keyDown ⟨"ArrowRight"⟩)
    rfl (by decide) (by decide) (by decide) (by decide)

/-- C5: clicking the rendered tab at index i sets `activeTab` to i,
whatever it was before: TabList bound that tab's `onSelectTab` callback
to its own index. -/
theorem click_sets_own_index (tabs : List TabSpec) (a : Int) (i : Nat)
    (hi : i < tabs.length) :
    clickTab? tabs a i = some (i : Int) := by
  have ht : tabs[i]? = some tabs[i] := List.getElem?_eq_getElem hi
  simp [clickTab?, TabList_getElem?, ht, mkTabItem, onSelectTab]

/-- Witness for C5: clicking tab 2 of the demo configuration while tab 0
is active. -/
theorem click_sets_own_index_witness :
    clickTab? sampleTabs 0 2 = some ((2 : Nat) : Int) :=
  click_sets_own_index sampleTabs 0 2 (by decide)

/-- C6: Panels renders exactly the Panel child at position `activeTab` —
the lookup succeeds in range — and renders nothing for an out-of-range
index: no wraparound, no validation. -/
theorem panels_renders_only_active (panels : List PanelSpec) (a : Int) :
    (0 ≤ a → a < (panels.length : Int) →
        Panels panels a = panels[a.toNat]? ∧ (Panels panels a).isSome = true)
  ∧ ((a < 0 ∨ (panels.length : Int) ≤ a) → Panels panels a = none) := by
  constructor
  · intro h0 hlt
    have hp : Panels panels a = panels[a.toNat]? := by
      unfold Panels; rw [if_pos h0]
    refine ⟨hp, ?_⟩
    rw [hp, List.getElem?_eq_getElem (by omega)]
    rfl
  · intro h
    rcases h with h | h
    · unfold Panels
      rw [if_neg (by omega)]
    · unfold Panels
      rw [if_pos (by omega)]
      exact List.getElem?_eq_none (by omega)

/-- Witness for C6: the demo Panels at index 1 (renders the latte panel)
and at index 5 (renders nothing). -/
theorem panels_renders_only_active_witness :
    (Panels samplePanels 1 = samplePanels[(1 : Int).toNat]?
        ∧ (Panels samplePanels 1).isSome = true)
  ∧ Panels samplePanels 5 = none :=
  ⟨(panels_renders_only_active samplePanels 1).1 (by decide) (by decide),
   (panels_renders_only_active samplePanels 5).2 (Or.inr (by decide))⟩

/-- C7: with 0 ≤ ActiveIndex < N, exactly one rendered Tab got
`active = true` — the one at index ActiveIndex — and exactly one is
sequentially focusable: `tabIndex` is 0 on the active button and -1 on
every other. -/
theorem unique_active_and_focusable (tabs : List TabSpec) (N : Nat) (a : Int)
    (hN : tabs.length = N) (h0 : 0 ≤ a) (hlt : a < (N : Int)) :
    ((TabList tabs a).countP (fun it => it.active) = 1)
  ∧ (((TabList tabs a)[a.toNat]?).map (fun it => it.active) = some true)
  ∧ ((TabList tabs a).countP (fun it => decide (it.button.tabIndex = 0)) = 1)
  ∧ (∀ i : Nat, i < N → i ≠ a.toNat →
        ((TabList tabs a)[i]?).map (fun it => it.button.tabIndex) = some (-1)) := by
  have hcount : (TabList tabs a).countP (fun it => it.active) = 1 := by
    rw [TabList, tabListGo_countP_active a tabs 0, if_pos (by omega)]
  refine ⟨hcount, ?_, ?_, ?_⟩
  · rw [TabList_getElem?, List.getElem?_eq_getElem (by omega)]
    simp [mkTabItem]
    omega
  · rw [TabList, tabListGo_countP_tabIndex a tabs 0]
    rw [TabList] at hcount
    exact hcount
  · intro i hiN hne
    have hia : ¬((i : Int) = a) := by omega
    rw [TabList_getElem?, List.getElem?_eq_getElem (by omega)]
    simp [mkTabItem, Tab, hia]

/-- Witness for C7: the demo configuration with tab 1 active; tab 0 is
one of the inactive tabs. -/
theorem unique_active_and_focusable_witness :
    ((TabList sampleTabs 1).countP (fun it => it.active) = 1)
  ∧ (((TabList sampleTabs 1)[(1 : Int).toNat]?).map (fun it => it.active) = some true)
  ∧ ((TabList sampleTabs 1).countP (fun it => decide (it.button.tabIndex = 0)) = 1)
  ∧ (((TabList sampleTabs 1)[0]?).map (fun it => it.button.tabIndex) = some (-1)) :=
  ⟨(unique_active_and_focusable sampleTabs 3 1 rfl (by decide) (by decide)).1,
   (unique_active_and_focusable sampleTabs 3 1 rfl (by decide) (by decide)).2.1,
   (unique_active_and_focusable sampleTabs 3 1 rfl (by decide) (by decide)).2.2.1,
   (unique_active_and_focusable sampleTabs 3 1 rfl (by decide) (by decide)).2.2.2
     0 (by decide) (by decide)⟩

/-- C8: exactly the rendered Tab with `active = true` passes the shared
handle to `ref` (the others pass `null`), so after an ActiveIndex change
the handle names the tab at the new index, and the post-render effect —
which runs after every render, mount included — focuses that tab. -/
theorem focus_follows_active_tab (tabs : List TabSpec) (N : Nat) (a : Int)
    (hN : tabs.length = N) (h0 : 0 ≤ a) (hlt : a < (N : Int)) :
    (∀ i : Nat, i < N →
        ((TabList tabs a)[i]?).map (fun it => it.button.claimsFocus)
          = some (decide ((i : Int) = a)))
  ∧ focusTarget? tabs a = some a.toNat
  ∧ afterRenderFocus? tabs a = some a.toNat := by
  have hfoc : focusTarget? tabs a = some a.toNat := by
    unfold focusTarget? TabList
    exact tabListGo_find?_claimsFocus a tabs 0 h0 (by omega)
  refine ⟨?_, hfoc, hfoc⟩
  intro i hiN
  rw [TabList_getElem?, List.getElem?_eq_getElem (by omega)]
  simp [mkTabItem, Tab]

/-- Witness for C8: the demo configuration after ActiveIndex changed
to 2; tab 0 does not claim the handle, tab 2 holds it. -/
theorem focus_follows_active_tab_witness :
    (((TabList sampleTabs 2)[0]?).map (fun it => it.button.claimsFocus)
        = some (decide ((0 : Int) = 2)))
  ∧ focusTarget? sampleTabs 2 = some (2 : Int).toNat
  ∧ afterRenderFocus? sampleTabs 2 = some (2 : Int).toNat :=
  ⟨(focus_follows_active_tab sampleTabs 3 2 rfl (by decide) (by decide)).1 0 (by decide),
   (focus_follows_active_tab sampleTabs 3 2 rfl (by decide) (by decide)).2.1,
   (focus_follows_active_tab sampleTabs 3 2 rfl (by decide) (by decide)).2.2⟩

/-- C9: with the child collections empty or missing (tab count 0), the
last-index read `children[0].props.children.length` fails instead of
producing a value, and so does every `handleKeyPress` call. -/
theorem empty_collections_fail (a : Int) (e : KeyboardEvent) :
    tabListLength? ([] : List TabSpec) = none ∧ handleKeyPress [] a e = none :=
  ⟨rfl, rfl⟩

/-- C10: on an in-range state with N ≥ 1 tabs, ArrowLeft followed by
ArrowRight restores the original ActiveIndex, and so does ArrowRight
followed by ArrowLeft. -/
theorem arrows_mutually_inverse (tabs : List TabSpec) (N : Nat) (a : Int)
    (hN : tabs.length = N) (h0 : 0 ≤ a) (hlt : a < (N : Int)) :
    (((handleKeyPress tabs a ⟨"ArrowLeft"⟩).map KeyResult.activeTab).bind
        (fun b => (handleKeyPress tabs b ⟨"ArrowRight"⟩).map KeyResult.activeTab)
      = some a)
  ∧ (((handleKeyPress tabs a ⟨"ArrowRight"⟩).map KeyResult.activeTab).bind
        (fun b => (handleKeyPress tabs b ⟨"ArrowLeft"⟩).map KeyResult.activeTab)
      = some a) := by
  have hne : tabs ≠ [] := by intro h; rw [h] at hN; simp at hN; omega
  constructor <;>
  · rw [handleKeyPress_of_ne_nil tabs a _ hne, hN]
    simp only [Option.map_some', Option.some_bind]
    rw [handleKeyPress_of_ne_nil tabs _ _ hne, hN]
    simp [keyTransition]
    split_ifs <;> omega

/-- Witness for C10: the demo configuration at ActiveIndex 0, where both
orders pass through the wraparound. -/
theorem arrows_mutually_inverse_witness :
    (((handleKeyPress sampleTabs 0 ⟨"ArrowLeft"⟩).map KeyResult.activeTab).bind
        (fun b => (handleKeyPress sampleTabs b ⟨"ArrowRight"⟩).map KeyResult.activeTab)
      = some 0)
  ∧ (((handleKeyPress sampleTabs 0 ⟨"ArrowRight"⟩).map KeyResult.activeTab).bind
        (fun b => (handleKeyPress sampleTabs b ⟨"ArrowLeft"⟩).map KeyResult.activeTab)
      = some 0) :=
  arrows_mutually_inverse sampleTabs 3 0 rfl (by decide) (by decide)

end AccessibleTabPanel
